import Mathlib

/-!
Verification of the MediaBot on-device downloader
(`mediabot_app/android/app/src/main/python/downloader.py`).

The module is a configuration/adaptation layer over an external
extraction library (yt-dlp).  We embed it shallowly: the extraction
library, the filename predictor and the filesystem are explicit
functional parameters; the module's own logic (mode parsing, option
building, format-preference lists, the post-download file locator and
result normalisation) is translated directly from the source.
-/

namespace MediaBot

/-- Mobile browser User-Agent string (`_MOBILE_UA` in the source). -/
def _MOBILE_UA : String :=
  "Mozilla/5.0 (Linux; Android 14; Pixel 8 Pro) " ++
  "AppleWebKit/537.36 (KHTML, like Gecko) " ++
  "Chrome/124.0.0.0 Mobile Safari/537.36"

/-- Desktop browser User-Agent string (`_DESKTOP_UA` in the source). -/
def _DESKTOP_UA : String :=
  "Mozilla/5.0 (Windows NT 10.0; Win64; x64) " ++
  "AppleWebKit/537.36 (KHTML, like Gecko) " ++
  "Chrome/124.0.0.0 Safari/537.36"

/-- Python `s.split(sep)[i]`-style splitting for a one-character
separator, over the string's character list. -/
def pySplit (sep : Char) (s : String) : List String :=
  (s.toList.splitOn sep).map String.mk

/-- `os.path.join(d, f)` for a relative `f` and plain directory `d`. -/
def joinPath (d f : String) : String := d ++ "/" ++ f

/-- `os.path.basename p`: the component after the last slash. -/
def basename (p : String) : String := (pySplit '/' p).getLastD p

/-- A directory entry as the file locator sees it: name inside the
directory, whether `os.path.isfile` holds of it, and its
`os.path.getmtime` modification time. -/
structure DirEntry where
  name : String
  isFile : Bool
  mtime : Int
deriving Repr, DecidableEq

/-- Metadata object returned by the extraction library
(`extract_info`): the fields this module reads, each possibly absent
(`info.get` with a default). -/
structure MediaInfo where
  title : Option String
  duration : Option Int
  thumbnail : Option String
deriving Repr, DecidableEq

/-- The `ydl_opts` dictionary assembled by `download_media`. -/
structure YdlOpts where
  noWarnings : Bool
  noplaylist : Bool
  quiet : Bool
  noColor : Bool
  geoBypass : Bool
  socketTimeout : Nat
  retries : Nat
  outtmpl : String
  formatSort : List String
  format : String
  /-- `http_headers` User-Agent override; `none` means the library's
  default headers (no override key present). -/
  httpHeaders : Option String
deriving Repr, DecidableEq

/-- The options dictionary assembled by `get_info`. -/
structure InfoOpts where
  quiet : Bool
  noWarnings : Bool
  noColor : Bool
  httpHeaders : Option String
deriving Repr, DecidableEq

/-- Result record of `download_media` (the JSON payload it serialises). -/
inductive DownloadResult where
  | success (title filename filepath : String)
  | error (msg : String)
deriving Repr, DecidableEq

/-- Result record of `get_info` (the JSON payload it serialises). -/
inductive InfoResult where
  | success (title : String) (duration : Int) (thumbnail : String)
  | error (msg : String)
deriving Repr, DecidableEq

/-- `_find_downloaded_file`'s `max(candidates, key=os.path.getmtime)`:
Python's `max` keeps the first element of maximal key, replacing the
running maximum only on a strictly larger key. -/
def maxByMtime (e : DirEntry) (es : List DirEntry) : DirEntry :=
  es.foldl (fun acc x => if acc.mtime < x.mtime then x else acc) e

/-- `_find_downloaded_file(output_dir, before_ts)`: filter the listing
to regular files modified at or after `before_ts`, and return the one
with the latest modification time, or `none` when no file qualifies.
The directory listing is passed explicitly. -/
def _find_downloaded_file (listing : List DirEntry) (before_ts : Int) :
    Option DirEntry :=
  let candidates := listing.filter fun e => e.isFile && decide (before_ts ≤ e.mtime)
  match candidates with
  | [] => none
  | e :: es => some (maxByMtime e es)

/-- Audio-kind format preference string (`is_audio` branch). -/
def audioFormat : String :=
  "bestaudio[ext=m4a]/bestaudio[ext=mp3]/bestaudio[ext=webm]/bestaudio/best"

/-- Video-kind format preference string (`else` branch). -/
def videoFormat : String :=
  "best[ext=mp4][height<=720]/best[ext=mp4]/best[height<=720]/best"

/-- `mode.endswith("-mp3")`: the last four characters of the mode are
`-mp3` (false when the mode is shorter). -/
def is_audioOf (mode : String) : Bool :=
  mode.toList.reverse.take 4 == "-mp3".toList.reverse

/-- `mode.split("-")[0]`: the part of the mode before the first `-`
(the whole mode when there is no `-`). -/
def platformOf (mode : String) : String := (pySplit '-' mode).headD ""

/-- The `ydl_opts` dictionary built by `download_media` from
`output_dir` and `mode`: base options, the format-preference string
chosen by kind, and the per-platform User-Agent override (absent for
an unrecognised platform). -/
def buildOpts (output_dir mode : String) : YdlOpts :=
  let is_audio := is_audioOf mode
  let platform := platformOf mode
  { noWarnings := true
    noplaylist := true
    quiet := true
    noColor := true
    geoBypass := true
    socketTimeout := 30
    retries := 3
    outtmpl := joinPath output_dir "%(title).80s.%(ext)s"
    formatSort := ["res:720", "ext:mp4:m4a:mp3:ogg:webm"]
    format := if is_audio then audioFormat else videoFormat
    httpHeaders :=
      if platform = "youtube" then some _MOBILE_UA
      else if platform = "instagram" then some _MOBILE_UA
      else if platform = "facebook" then some _DESKTOP_UA
      else none }

/-- The ordered format-preference list: yt-dlp tries the `/`-separated
alternatives of the format string in order. -/
def formatList (opts : YdlOpts) : List String := pySplit '/' opts.format

/-- A yt-dlp format specifier implies merging separate audio and video
streams exactly when it combines two formats with `+`
(e.g. `bestvideo+bestaudio`). -/
def impliesMerge (s : String) : Bool := s.toList.contains '+'

/-- `download_media(url, output_dir, mode)`.  The external world is
passed in explicitly: `extract` is `ydl.extract_info` (url, options,
download flag; raising is the `Except.error` case), `preparePath` is
`ydl.prepare_filename`, `pathExists` is `os.path.exists`, and
`listing`/`before_ts` feed the file-locator fallback. -/
def download_media (url output_dir mode : String)
    (extract : String → YdlOpts → Bool → Except String MediaInfo)
    (preparePath : YdlOpts → MediaInfo → String)
    (pathExists : String → Bool)
    (listing : List DirEntry) (before_ts : Int) : DownloadResult :=
  let ydl_opts := buildOpts output_dir mode
  match extract url ydl_opts true with
  | .error e => .error e
  | .ok info =>
    let title := info.title.getD "media"
    let filepath := preparePath ydl_opts info
    if pathExists filepath then
      .success title (basename filepath) filepath
    else
      match _find_downloaded_file listing before_ts with
      | some entry =>
        let fp := joinPath output_dir entry.name
        .success title (basename fp) fp
      | none => .error "Download finished but file not found"

/-- The options dictionary built by `get_info`. -/
def infoOpts : InfoOpts :=
  { quiet := true
    noWarnings := true
    noColor := true
    httpHeaders := some _MOBILE_UA }

/-- `get_info(url)`: invoke the library with `download=False` and
normalise the metadata, defaulting absent fields. -/
def get_info (url : String)
    (extract : String → InfoOpts → Bool → Except String MediaInfo) :
    InfoResult :=
  match extract url infoOpts false with
  | .error e => .error e
  | .ok info =>
    .success (info.title.getD "Unknown") (info.duration.getD 0)
      (info.thumbnail.getD "")

end MediaBot

namespace MediaBot

/-- Python's `max(e :: es, key)` folds along the tail, replacing the
running maximum only on a strictly larger key. -/
theorem maxByMtime_cons (e x : DirEntry) (xs : List DirEntry) :
    maxByMtime e (x :: xs) = maxByMtime (if e.mtime < x.mtime then x else e) xs := rfl

/-- The selected maximum is one of the candidates. -/
theorem maxByMtime_mem (es : List DirEntry) :
    ∀ e, maxByMtime e es ∈ e :: es := by
  induction es with
  | nil => intro e; simp [maxByMtime]
  | cons x xs ih =>
    intro e
    rw [maxByMtime_cons]
    by_cases hx : e.mtime < x.mtime
    · rw [if_pos hx]
      rcases List.mem_cons.mp (ih x) with h | h
      · rw [h]; simp [List.mem_cons]
      · simp [List.mem_cons, h]
    · rw [if_neg hx]
      rcases List.mem_cons.mp (ih e) with h | h
      · rw [h]; simp [List.mem_cons]
      · simp [List.mem_cons, h]

/-- The selected maximum dominates the seed and every later candidate. -/
theorem maxByMtime_le (es : List DirEntry) :
    ∀ e, e.mtime ≤ (maxByMtime e es).mtime ∧
      ∀ x ∈ es, x.mtime ≤ (maxByMtime e es).mtime := by
  induction es with
  | nil => intro e; simp [maxByMtime]
  | cons x xs ih =>
    intro e
    rw [maxByMtime_cons]
    by_cases hx : e.mtime < x.mtime
    · rw [if_pos hx]
      obtain ⟨h1, h2⟩ := ih x
      refine ⟨le_trans hx.le h1, ?_⟩
      intro y hy
      rcases List.mem_cons.mp hy with rfl | hy
      · exact h1
      · exact h2 y hy
    · rw [if_neg hx]
      obtain ⟨h1, h2⟩ := ih e
      refine ⟨h1, ?_⟩
      intro y hy
      rcases List.mem_cons.mp hy with rfl | hy
      · exact le_trans (not_lt.mp hx) h1
      · exact h2 y hy

/-- The selected maximum dominates every candidate. -/
theorem maxByMtime_le_all (e : DirEntry) (es : List DirEntry) :
    ∀ x ∈ e :: es, x.mtime ≤ (maxByMtime e es).mtime := by
  intro x hx
  rcases List.mem_cons.mp hx with rfl | hx
  · exact (maxByMtime_le es x).1
  · exact (maxByMtime_le es e).2 x hx

/-- Unfolding equation of the file locator. -/
theorem find_downloaded_file_eq (listing : List DirEntry) (ts : Int) :
    _find_downloaded_file listing ts =
      match listing.filter (fun e => e.isFile && decide (ts ≤ e.mtime)) with
      | [] => none
      | e :: es => some (maxByMtime e es) := rfl

/-- C2: for every directory listing and cutoff timestamp, the file
locator returns a regular file of the listing whose modification time
is at or after the cutoff and maximal among all such qualifying files,
and returns `none` exactly when no regular file in the listing has
modification time at or after the cutoff. -/
theorem find_downloaded_file_correct (listing : List DirEntry) (ts : Int) :
    (∀ r, _find_downloaded_file listing ts = some r →
       r ∈ listing ∧ r.isFile = true ∧ ts ≤ r.mtime ∧
       ∀ e ∈ listing, e.isFile = true → ts ≤ e.mtime → e.mtime ≤ r.mtime) ∧
    (_find_downloaded_file listing ts = none ↔
       ∀ e ∈ listing, e.isFile = true → e.mtime < ts) := by
  constructor
  · intro r hr
    rw [find_downloaded_file_eq] at hr
    cases hcand : listing.filter (fun e => e.isFile && decide (ts ≤ e.mtime)) with
    | nil => rw [hcand] at hr; exact Option.noConfusion hr
    | cons c cs =>
      simp only [hcand, Option.some.injEq] at hr
      subst hr
      have hmem : maxByMtime c cs ∈ listing.filter
          (fun e => e.isFile && decide (ts ≤ e.mtime)) := by
        rw [hcand]; exact maxByMtime_mem cs c
      obtain ⟨hmeml, hp⟩ := List.mem_filter.mp hmem
      simp only [Bool.and_eq_true, decide_eq_true_eq] at hp
      refine ⟨hmeml, hp.1, hp.2, ?_⟩
      intro e hel hef het
      have he : e ∈ listing.filter (fun e => e.isFile && decide (ts ≤ e.mtime)) :=
        List.mem_filter.mpr ⟨hel, by simp [hef, het]⟩
      rw [hcand] at he
      exact maxByMtime_le_all c cs e he
  · rw [find_downloaded_file_eq]
    cases hcand : listing.filter (fun e => e.isFile && decide (ts ≤ e.mtime)) with
    | nil =>
      rw [List.filter_eq_nil_iff] at hcand
      simp only
      constructor
      · intro _ e hel hef
        have := hcand e hel
        simp only [Bool.and_eq_true, decide_eq_true_eq, not_and, hef,
          forall_true_left, true_implies] at this
        omega
      · intro _; trivial
    | cons c cs =>
      simp only
      constructor
      · intro h; cases h
      · intro h
        exfalso
        have hc : c ∈ listing.filter (fun e => e.isFile && decide (ts ≤ e.mtime)) := by
          rw [hcand]; exact List.mem_cons_self c cs
        obtain ⟨hcl, hp⟩ := List.mem_filter.mp hc
        simp only [Bool.and_eq_true, decide_eq_true_eq] at hp
        have := h c hcl hp.1
        omega

/-- Witness for C2: on the listing `a`(file, mtime 3), `b`(file, mtime 7),
`c`(non-file, mtime 9) with cutoff 2, the locator picks `b`, the
qualifying file of maximal modification time. -/
theorem find_downloaded_file_correct_witness :
    (⟨"b", true, 7⟩ : DirEntry) ∈
        ([⟨"a", true, 3⟩, ⟨"b", true, 7⟩, ⟨"c", false, 9⟩] : List DirEntry) ∧
      (true : Bool) = true ∧ (2 : Int) ≤ 7 ∧
      ∀ e ∈ ([⟨"a", true, 3⟩, ⟨"b", true, 7⟩, ⟨"c", false, 9⟩] : List DirEntry),
        e.isFile = true → (2 : Int) ≤ e.mtime →
        e.mtime ≤ (⟨"b", true, 7⟩ : DirEntry).mtime :=
  (find_downloaded_file_correct
      [⟨"a", true, 3⟩, ⟨"b", true, 7⟩, ⟨"c", false, 9⟩] 2).1
    ⟨"b", true, 7⟩ (by decide)

end MediaBot

namespace MediaBot

/-- C1 (counterexample): for mode `tiktok-video`, whose platform prefix
`tiktok` is not youtube/instagram/facebook, `download_media` does not
reject the request: the extraction configuration is built with no
header override and a succeeding library stub is invoked, yielding a
success result. -/
theorem unknownPlatform_passthrough_cex :
    (buildOpts "/out" "tiktok-video").httpHeaders = none ∧
    download_media "u" "/out" "tiktok-video"
      (fun _ _ _ => Except.ok ⟨some "t", none, none⟩)
      (fun _ _ => "/out/t.mp4") (fun _ => true) [] 0
      = .success "t" "t.mp4" "/out/t.mp4" :=
  ⟨rfl, rfl⟩

/-- C1 (amended): for every mode whose platform prefix is not youtube,
instagram or facebook, `download_media` builds the extraction
configuration with no HTTP header override and passes the request
through to the library (whose outcome, here an error, propagates)
rather than rejecting it. -/
theorem unknownPlatform_no_header_override (output_dir mode : String)
    (h : platformOf mode ≠ "youtube" ∧ platformOf mode ≠ "instagram" ∧
      platformOf mode ≠ "facebook") :
    (buildOpts output_dir mode).httpHeaders = none ∧
    ∀ (url : String)
      (extract : String → YdlOpts → Bool → Except String MediaInfo)
      (preparePath : YdlOpts → MediaInfo → String)
      (pathExists : String → Bool)
      (listing : List DirEntry) (before_ts : Int) (msg : String),
      extract url (buildOpts output_dir mode) true = Except.error msg →
      download_media url output_dir mode extract preparePath pathExists listing before_ts
        = .error msg := by
  obtain ⟨h1, h2, h3⟩ := h
  constructor
  · simp [buildOpts, h1, h2, h3]
  · intro url ex pp pe l ts msg herr
    simp [download_media, herr]

/-- Witness for the amended C1 at mode `tiktok-video`. -/
theorem unknownPlatform_no_header_override_witness :
    (buildOpts "/out" "tiktok-video").httpHeaders = none ∧
    download_media "u" "/out" "tiktok-video"
      (fun _ _ _ => Except.error "boom") (fun _ _ => "") (fun _ => false) [] 0
      = .error "boom" :=
  have h := unknownPlatform_no_header_override "/out" "tiktok-video"
    ⟨by decide, by decide, by decide⟩
  ⟨h.1, h.2 "u" (fun _ _ _ => Except.error "boom") (fun _ _ => "") (fun _ => false)
    [] 0 "boom" rfl⟩

/-- C3: for every mode (audio and video kinds alike) and output
directory, no alternative of the format-preference list built by
`download_media` implies merging separate audio and video streams. -/
theorem format_list_no_merge_specifier (output_dir mode : String) :
    ((formatList (buildOpts output_dir mode)).all fun s => !(impliesMerge s)) = true := by
  have h : (buildOpts output_dir mode).format =
      if is_audioOf mode then audioFormat else videoFormat := rfl
  unfold formatList
  rw [h]
  cases ha : is_audioOf mode
  · simp only [Bool.false_eq_true, if_false]; decide
  · simp only [if_true]; decide

/-- C4: for every mode of audio kind (`-mp3` suffix), the
format-preference list is exactly: best audio-only in m4a, then mp3,
then webm, then any best audio-only stream, then overall best. -/
theorem audio_format_preference_exact (output_dir mode : String)
    (h : is_audioOf mode = true) :
    formatList (buildOpts output_dir mode) =
      ["bestaudio[ext=m4a]", "bestaudio[ext=mp3]", "bestaudio[ext=webm]",
       "bestaudio", "best"] := by
  have hf : (buildOpts output_dir mode).format = audioFormat := by
    show (if is_audioOf mode then audioFormat else videoFormat) = audioFormat
    rw [h]; rfl
  unfold formatList
  rw [hf]
  decide

/-- Witness for C4 at mode `youtube-mp3`. -/
theorem audio_format_preference_exact_witness :
    is_audioOf "youtube-mp3" = true ∧
    formatList (buildOpts "/d" "youtube-mp3") =
      ["bestaudio[ext=m4a]", "bestaudio[ext=mp3]", "bestaudio[ext=webm]",
       "bestaudio", "best"] :=
  ⟨by decide, audio_format_preference_exact "/d" "youtube-mp3" (by decide)⟩

/-- C5: for every mode of video kind (no `-mp3` suffix), the
format-preference list is exactly: best single-file mp4 capped at
720p, then best mp4 uncapped, then best single-file stream capped at
720p, then overall best. -/
theorem video_format_preference_exact (output_dir mode : String)
    (h : is_audioOf mode = false) :
    formatList (buildOpts output_dir mode) =
      ["best[ext=mp4][height<=720]", "best[ext=mp4]", "best[height<=720]", "best"] := by
  have hf : (buildOpts output_dir mode).format = videoFormat := by
    show (if is_audioOf mode then audioFormat else videoFormat) = videoFormat
    rw [h]; rfl
  unfold formatList
  rw [hf]
  decide

/-- Witness for C5 at mode `youtube-video`. -/
theorem video_format_preference_exact_witness :
    is_audioOf "youtube-video" = false ∧
    formatList (buildOpts "/d" "youtube-video") =
      ["best[ext=mp4][height<=720]", "best[ext=mp4]", "best[height<=720]", "best"] :=
  ⟨by decide, video_format_preference_exact "/d" "youtube-video" (by decide)⟩

/-- C6: when the library succeeds, the predicted path does not exist
and the file locator finds no qualifying file, `download_media`
returns the error record with message exactly
`Download finished but file not found`. -/
theorem download_file_not_found_error (url output_dir mode : String)
    (extract : String → YdlOpts → Bool → Except String MediaInfo)
    (preparePath : YdlOpts → MediaInfo → String)
    (pathExists : String → Bool)
    (listing : List DirEntry) (before_ts : Int) (info : MediaInfo)
    (hok : extract url (buildOpts output_dir mode) true = Except.ok info)
    (hex : pathExists (preparePath (buildOpts output_dir mode) info) = false)
    (hfind : _find_downloaded_file listing before_ts = none) :
    download_media url output_dir mode extract preparePath pathExists listing before_ts
      = .error "Download finished but file not found" := by
  simp [download_media, hok, hex, hfind]

/-- Witness for C6: success stub, absent predicted file, empty directory. -/
theorem download_file_not_found_error_witness :
    download_media "u" "/out" "youtube-video"
      (fun _ _ _ => Except.ok ⟨none, none, none⟩)
      (fun _ _ => "/out/x.mp4") (fun _ => false) [] 0
      = .error "Download finished but file not found" :=
  download_file_not_found_error "u" "/out" "youtube-video"
    (fun _ _ _ => Except.ok ⟨none, none, none⟩)
    (fun _ _ => "/out/x.mp4") (fun _ => false) [] 0 ⟨none, none, none⟩ rfl rfl rfl

/-- C7: for every message `msg`, a library failure carrying `msg`
makes `download_media` (and, respectively, `get_info`) return the
error record with message exactly `msg`; the functions are total, so
no exception escapes, and the library is consulted exactly once. -/
theorem library_failure_error_propagation (msg : String) :
    (∀ (url output_dir mode : String)
       (extract : String → YdlOpts → Bool → Except String MediaInfo)
       (preparePath : YdlOpts → MediaInfo → String)
       (pathExists : String → Bool)
       (listing : List DirEntry) (before_ts : Int),
       extract url (buildOpts output_dir mode) true = Except.error msg →
       download_media url output_dir mode extract preparePath pathExists listing before_ts
         = .error msg) ∧
    (∀ (url : String) (extract : String → InfoOpts → Bool → Except String MediaInfo),
       extract url infoOpts false = Except.error msg →
       get_info url extract = .error msg) := by
  constructor
  · intro url d m ex pp pe l ts h
    simp [download_media, h]
  · intro url ex h
    simp [get_info, h]

/-- Witness for C7 with a library failing with `HTTP 429`. -/
theorem library_failure_error_propagation_witness :
    download_media "u" "/d" "instagram-video"
      (fun _ _ _ => Except.error "HTTP 429") (fun _ _ => "") (fun _ => false) [] 0
      = .error "HTTP 429" ∧
    get_info "u" (fun _ _ _ => Except.error "HTTP 429") = .error "HTTP 429" :=
  ⟨(library_failure_error_propagation "HTTP 429").1 "u" "/d" "instagram-video"
      (fun _ _ _ => Except.error "HTTP 429") (fun _ _ => "") (fun _ => false) [] 0 rfl,
   (library_failure_error_propagation "HTTP 429").2 "u"
      (fun _ _ _ => Except.error "HTTP 429") rfl⟩

/-- C8: when the library succeeds, `get_info` returns the success
record with title defaulting to `Unknown`, duration to 0 and thumbnail
to the empty string; and its result depends only on the library's
behaviour with the download flag disabled (`false`), i.e. no download
is requested. -/
theorem get_info_success_defaults (url : String)
    (extract : String → InfoOpts → Bool → Except String MediaInfo)
    (info : MediaInfo)
    (h : extract url infoOpts false = Except.ok info) :
    get_info url extract =
      .success (info.title.getD "Unknown") (info.duration.getD 0)
        (info.thumbnail.getD "") ∧
    ∀ extract2 : String → InfoOpts → Bool → Except String MediaInfo,
      (∀ u o, extract u o false = extract2 u o false) →
      get_info url extract = get_info url extract2 := by
  constructor
  · simp [get_info, h]
  · intro ex2 hagree
    simp only [get_info]
    rw [hagree url infoOpts]

/-- Witness for C8 with full metadata present. -/
theorem get_info_success_defaults_witness :
    get_info "u" (fun _ _ _ => Except.ok ⟨some "T", some 12, some "thumb"⟩)
      = .success "T" 12 "thumb" :=
  (get_info_success_defaults "u"
    (fun _ _ _ => Except.ok ⟨some "T", some 12, some "thumb"⟩)
    ⟨some "T", some 12, some "thumb"⟩ rfl).1

/-- C9: `get_info` is a deterministic function of the URL and the
library's response at that URL: two calls with the same URL against
libraries agreeing at that URL return identical result records. -/
theorem get_info_deterministic (url : String)
    (lib lib2 : String → InfoOpts → Bool → Except String MediaInfo)
    (h : ∀ o d, lib url o d = lib2 url o d) :
    get_info url lib = get_info url lib2 := by
  simp only [get_info]
  rw [h infoOpts false]

/-- Witness for C9: two calls against the same stub agree. -/
theorem get_info_deterministic_witness :
    get_info "u" (fun _ _ _ => Except.ok ⟨some "A", none, none⟩)
      = get_info "u"
        (fun u o d => (fun _ _ _ => Except.ok ⟨some "A", none, none⟩) u o d) :=
  get_info_deterministic "u" _ _ (fun _ _ => rfl)

/-- C10: when the library succeeds with metadata containing no title,
every success record returned by `download_media` carries the title
`media` (the default differs from `get_info`'s `Unknown`). -/
theorem download_default_title_is_media (url output_dir mode : String)
    (extract : String → YdlOpts → Bool → Except String MediaInfo)
    (preparePath : YdlOpts → MediaInfo → String)
    (pathExists : String → Bool)
    (listing : List DirEntry) (before_ts : Int) (info : MediaInfo)
    (t fn fp : String)
    (hok : extract url (buildOpts output_dir mode) true = Except.ok info)
    (ht : info.title = none)
    (hres : download_media url output_dir mode extract preparePath pathExists listing before_ts
      = .success t fn fp) :
    t = "media" := by
  simp only [download_media, hok, ht, Option.getD_none] at hres
  split at hres
  · simp only [DownloadResult.success.injEq] at hres
    exact hres.1.symm
  · split at hres
    · simp only [DownloadResult.success.injEq] at hres
      exact hres.1.symm
    · exact DownloadResult.noConfusion hres

/-- Witness for C10: a titleless success yields title `media`. -/
theorem download_default_title_is_media_witness :
    download_media "u" "/d" "youtube-video"
      (fun _ _ _ => Except.ok ⟨none, none, none⟩)
      (fun _ _ => "/d/x.mp4") (fun _ => true) [] 0
      = .success "media" "x.mp4" "/d/x.mp4" ∧ "media" = "media" :=
  ⟨rfl, download_default_title_is_media "u" "/d" "youtube-video"
    (fun _ _ _ => Except.ok ⟨none, none, none⟩)
    (fun _ _ => "/d/x.mp4") (fun _ => true) [] 0 ⟨none, none, none⟩
    "media" "x.mp4" "/d/x.mp4" rfl rfl rfl⟩

end MediaBot
